import Mathlib

/-!
# Dealing-with-Errors-in-OpenGL: a verification development of `src/Application.cpp`

The development embeds three parts of `Application.cpp`:

* `ParseShader` (lines 58-102), the `#shader` section splitter;
* the error harness `GLClearErrors` / `GLLogCall` / `GLCall` (lines 13-46);
* the shader pipeline `CompileShader` / `CreateShader` (lines 108-192).

Files are sequences of lines (what successive `getline` calls return).  The
graphics driver is external to the repository: it is an arbitrary oracle that
answers each call, changes its own object state and raises error codes, which
are collected in an explicit error queue read by `glGetError`.
-/

namespace GLErrors

/-! ## Strings -/

/-- Scan of `std::string::find`: first position at or after `pos` (the number
of characters already skipped) where `pat` starts in the remaining text, and
`none` for `std::string::npos`. -/
def findFrom (pat : List Char) : List Char → Nat → Option Nat
  | [], pos => if pat.isEmpty then some pos else none
  | c :: cs, pos =>
    if pat.isPrefixOf (c :: cs) then some pos else findFrom pat cs (pos + 1)

/-- Embedding of `line.find(pat)`: position of the first occurrence of `pat`
in `s`, `none` standing for `std::string::npos`. -/
def find (s pat : String) : Option Nat :=
  findFrom pat.data s.data 0

/-! ## ParseShader (Application.cpp, lines 49-102) -/

/-- The enum class of lines 64-67: `NONE = -1, VERTEX = 0, FRAGMENT = 1`. -/
inductive ShaderType where
  | NONE
  | VERTEX
  | FRAGMENT
  deriving DecidableEq, Repr

/-- The cast `(int)type` of line 96. -/
def ShaderType.toInt : ShaderType → Int
  | ShaderType.NONE => -1
  | ShaderType.VERTEX => 0
  | ShaderType.FRAGMENT => 1

/-- The struct of lines 49-53. -/
structure ShaderProgramSource where
  VertexSource : String
  FragmentSource : String
  deriving DecidableEq, Repr

deriving instance DecidableEq for Except

/-- What goes wrong in the parse loop: the array `ss` of two string streams is
subscripted with an index outside `0..1` (undefined behaviour in C++). -/
inductive ParseFault where
  | outOfRange (index : Int)
  deriving DecidableEq, Repr

/-- The local variables of the parse loop: the selector `type` and the array
`std::stringstream ss[2]`, whose element 0 is `ss0` and element 1 is `ss1`. -/
structure ParseState where
  type : ShaderType
  ss0 : String
  ss1 : String
  deriving DecidableEq, Repr

/-- The statement `ss[i] << text` on the two-element array: element `i` grows
by `text` when `i` is 0 or 1; any other subscript is outside the array. -/
def ssAppend (st : ParseState) (i : Int) (text : String) : Except ParseFault ParseState :=
  if i = 0 then Except.ok { st with ss0 := st.ss0 ++ text }
  else if i = 1 then Except.ok { st with ss1 := st.ss1 ++ text }
  else Except.error (ParseFault.outOfRange i)

/-- One iteration of the `while (getline(stream, line))` body, lines 80-97. -/
def parseStep (st : ParseState) (line : String) : Except ParseFault ParseState :=
  if find line "#shader" != none then
    if find line "vertex" != none then
      Except.ok { st with type := ShaderType.VERTEX }
    else if find line "fragment" != none then
      Except.ok { st with type := ShaderType.FRAGMENT }
    else
      Except.ok st
  else
    ssAppend st st.type.toInt (line ++ "\n")

/-- The `while (getline(stream, line))` loop over the lines still to read. -/
def parseLoop : ParseState → List String → Except ParseFault ParseState
  | st, [] => Except.ok st
  | st, line :: rest =>
    match parseStep st line with
    | Except.ok st1 => parseLoop st1 rest
    | Except.error e => Except.error e

/-- The state at loop entry: `type = ShaderType::NONE`, both streams empty. -/
def parseInit : ParseState :=
  { type := ShaderType.NONE, ss0 := "", ss1 := "" }

/-- Embedding of `ParseShader` applied to a file whose lines are `lines`:
the loop, then `return { ss[0].str(), ss[1].str() }`. -/
def ParseShader (lines : List String) : Except ParseFault ShaderProgramSource :=
  match parseLoop parseInit lines with
  | Except.ok st => Except.ok { VertexSource := st.ss0, FragmentSource := st.ss1 }
  | Except.error e => Except.error e

/-- The subscripts `(int)type` used by the appends `ss[(int)type] << ...` that
the loop executes, in execution order, started with selector `type`; the scan
stops after a subscript outside the array, where the execution is undefined. -/
def appendIndices : ShaderType → List String → List Int
  | _, [] => []
  | type, line :: rest =>
    if find line "#shader" != none then
      if find line "vertex" != none then appendIndices ShaderType.VERTEX rest
      else if find line "fragment" != none then appendIndices ShaderType.FRAGMENT rest
      else appendIndices type rest
    else if type.toInt = 0 ∨ type.toInt = 1 then type.toInt :: appendIndices type rest
    else [type.toInt]

/-! ### Reference definition of the parse result, following the specification -/

/-- A line contains the text `pat` somewhere. -/
def containsText (line pat : String) : Bool :=
  decide (pat.data <:+: line.data)

/-- A section header: a line containing the marker `#shader`. -/
def isHeader (line : String) : Bool :=
  containsText line "#shader"

/-- The stage a header line selects, if any: the substring `vertex` selects
the vertex section, `fragment` selects the fragment section (a line with both
selects vertex); a header naming neither selects nothing. -/
def selectedStage (line : String) : Option ShaderType :=
  if containsText line "vertex" then some ShaderType.VERTEX
  else if containsText line "fragment" then some ShaderType.FRAGMENT
  else none

/-- A selecting header: a `#shader` line containing `vertex` or `fragment`. -/
def isSelecting (line : String) : Bool :=
  isHeader line && (containsText line "vertex" || containsText line "fragment")

/-- The nearest selecting header among the lines `before` a given line selected
`stage`: the last selecting header of `before` exists and selects `stage`. -/
def nearestSelects (before : List String) (stage : ShaderType) : Bool :=
  match before.reverse.find? isSelecting with
  | some h => selectedStage h == some stage
  | none => false

/-- Reference section text: the concatenation, in file order, of `line ++ "\n"`
for exactly those lines that are not headers and whose nearest preceding
selecting header selected `stage`. -/
def refSection (stage : ShaderType) (lines : List String) : String :=
  String.join
    (((lines.inits.zip lines).filter
        (fun p => !isHeader p.2 && nearestSelects p.1 stage)).map
      (fun p => p.2 ++ "\n"))

/-- The lines, each with its newline, that `refSection` keeps of `rest` when
the lines `before` precede `rest` in the file. -/
def refLinesFrom (stage : ShaderType) (before rest : List String) : List String :=
  (((rest.inits.map (fun t => before ++ t)).zip rest).filter
      (fun p => !isHeader p.2 && nearestSelects p.1 stage)).map
    (fun p => p.2 ++ "\n")

/-- Reference parse result. -/
def refParse (lines : List String) : ShaderProgramSource :=
  { VertexSource := refSection ShaderType.VERTEX lines,
    FragmentSource := refSection ShaderType.FRAGMENT lines }

/-! ## The driver boundary

The OpenGL driver is not part of the repository.  A driver is an arbitrary
function answering each call from its object state; the error codes it raises
are appended to an explicit error queue, which only `glGetError` reads. -/

/-- Modelled from the spec: the code `glGetError` returns when no error is
queued; the macro is declared in `GL/glew.h`, outside the repository. -/
def GL_NO_ERROR : Nat := 0

/-- Modelled from the spec: an invalid-enum driver error code (`GL/glew.h`). -/
def GL_INVALID_ENUM : Nat := 0x0500

/-- Modelled from the spec: the invalid-value driver error code (`GL/glew.h`). -/
def GL_INVALID_VALUE : Nat := 0x0501

/-- Modelled from the spec: the boolean-like flag "false" of status queries
(`GL/glew.h`). -/
def GL_FALSE : Int := 0

/-- Modelled from the spec: the boolean-like flag "true" of status queries
(`GL/glew.h`). -/
def GL_TRUE : Int := 1

/-- Modelled from the spec: the stage kind "fragment" (`GL/glew.h`). -/
def GL_FRAGMENT_SHADER : Nat := 0x8B30

/-- Modelled from the spec: the stage kind "vertex" (`GL/glew.h`). -/
def GL_VERTEX_SHADER : Nat := 0x8B31

/-- Modelled from the spec: the name of the compile-status flag (`GL/glew.h`). -/
def GL_COMPILE_STATUS : Nat := 0x8B81

/-- Modelled from the spec: the name of the diagnostic log length (`GL/glew.h`). -/
def GL_INFO_LOG_LENGTH : Nat := 0x8B84

/-- A driver call other than `glGetError`, with the values of its arguments.
`glShaderSource` carries the number of source chunks and the text of the one
chunk; `other` is any driver function that the shader pipeline does not use
(such as `glDrawElements`), with its name and numeric arguments. -/
inductive GLCmd where
  | glCreateShader (type : Nat)
  | glShaderSource (shader : Nat) (count : Nat) (src : String)
  | glCompileShader (shader : Nat)
  | glGetShaderiv (shader : Nat) (pname : Nat)
  | glGetShaderInfoLog (shader : Nat) (maxLength : Int)
  | glDeleteShader (shader : Nat)
  | glCreateProgram
  | glAttachShader (program : Nat) (shader : Nat)
  | glLinkProgram (program : Nat)
  | glValidateProgram (program : Nat)
  | other (name : String) (args : List Int)
  deriving DecidableEq, Repr

/-- An entry of the record of driver calls: a read of the error queue, or any
other call. -/
inductive GLEvent where
  | glGetError
  | call (cmd : GLCmd)
  deriving DecidableEq, Repr

/-- What the driver answers to a call: its object state after the call, the
error codes the call raised, and the values handed back (an unsigned handle
as return value, an integer stored through a `GLint*` argument, a C string
stored through a `GLchar*` argument); a call uses the fields it has. -/
structure Reply (σ : Type) where
  gl : σ
  raised : List Nat
  uint : Nat
  int : Int
  text : String
  deriving DecidableEq, Repr

/-- A driver with object state `σ`. -/
abbrev Driver (σ : Type) := GLCmd → σ → Reply σ

/-- The state the program runs in: the driver's object state, the driver's
error queue (oldest code first), the record of all driver calls made so far
(oldest first), the text written to `std::cout`, and whether `__debugbreak()`
has been reached. -/
structure World (σ : Type) where
  gl : σ
  errors : List Nat
  calls : List GLEvent
  cout : String
  halted : Bool
  deriving DecidableEq, Repr

/-- A driver call other than `glGetError`: the driver answers from its object
state, the codes it raises join the error queue, the call is recorded. -/
def driverCall {σ : Type} (drv : Driver σ) (cmd : GLCmd) (w : World σ) : Reply σ × World σ :=
  let r := drv cmd w.gl
  (r, { w with gl := r.gl, errors := w.errors ++ r.raised,
               calls := w.calls ++ [GLEvent.call cmd] })

/-- Modelled from the spec: `glGetError()` of the external driver, which
removes the oldest queued error code and returns it, or returns `GL_NO_ERROR`
when the queue is empty. -/
def glGetError {σ : Type} (w : World σ) : Nat × World σ :=
  match w.errors with
  | [] => (GL_NO_ERROR, { w with calls := w.calls ++ [GLEvent.glGetError] })
  | e :: q => (e, { w with errors := q, calls := w.calls ++ [GLEvent.glGetError] })

/-- Writing `text` to `std::cout`. -/
def coutWrite {σ : Type} (w : World σ) (text : String) : World σ :=
  { w with cout := w.cout ++ text }

/-! ## The error harness (Application.cpp, lines 13-46) -/

/-- Embedding of `GLClearErrors`: `while (glGetError() != GL_NO_ERROR);`.
Every iteration that goes on has removed a code from the queue, so the loop
ends. -/
def GLClearErrors {σ : Type} (w : World σ) : World σ :=
  if ((glGetError w).1 != GL_NO_ERROR) = true then
    GLClearErrors (glGetError w).2
  else (glGetError w).2
termination_by w.errors.length
decreasing_by
  rename_i h
  unfold glGetError at h ⊢
  cases hq : w.errors with
  | nil => rw [hq] at h; simp at h
  | cons e q => simp

/-- Embedding of `GLLogCall`: the loop `while (GLenum error = glGetError())`
whose body writes one line and executes `return false`, so that it is left in
its first iteration; `return true` when the first read finds no error. -/
def GLLogCall {σ : Type} (function file : String) (line : Int) (w : World σ) :
    Bool × World σ :=
  let r := glGetError w
  let error := r.1
  if error != 0 then
    (false, coutWrite r.2
      ("[OpenGL Error] (" ++ toString error ++ ") " ++ function ++ " " ++ file ++ ": " ++
        toString line ++ "\n"))
  else
    (true, r.2)

/-- Embedding of the macro `ASSERT(x)`: `if (!(x)) __debugbreak();`. -/
def ASSERT {σ : Type} (x : Bool) (w : World σ) : World σ :=
  if !x then { w with halted := true } else w

/-- Embedding of the macro `GLCall(x)` for a driver call `x`:
`GLClearErrors(); x; ASSERT(GLLogCall(#x, __FILE__, __LINE__))`, where the
preprocessor supplies the text `xText` of `x`, the file name and the line. -/
def GLCall {σ : Type} (drv : Driver σ) (x : GLCmd) (xText file : String) (line : Int)
    (w : World σ) : World σ :=
  let w1 := GLClearErrors w
  let w2 := (driverCall drv x w1).2
  let r := GLLogCall xText file line w2
  ASSERT r.1 r.2

/-! ## The shader pipeline (Application.cpp, lines 108-192) -/

/-- The C string `source.c_str()` as read by a callee that is given no length:
the characters before the first NUL. -/
def c_str (source : String) : String :=
  String.mk (source.data.takeWhile (fun c => c != Char.ofNat 0))

/-- The C string that `std::cout << message` reads from the buffer
`message = alloca(length)` after `glGetShaderInfoLog(id, length, &length,
message)`.  For `length` at least 1 the driver has stored there its log, cut
to `length - 1` characters and terminated; `stored` is the text of its reply.
For `length` 0 or less no character has been stored and the buffer is read as
it was allocated: the text is whatever the stack holds in the state `w`, given
by `stackText`. -/
def bufferText {σ : Type} (stackText : World σ → String) (length : Int) (stored : String)
    (w : World σ) : String :=
  if length ≤ 0 then stackText w
  else c_str (String.mk (stored.data.take (length.toNat - 1)))

/-- Embedding of `CompileShader`; `stackText` gives the text read from a buffer
that was never written. -/
def CompileShader {σ : Type} (drv : Driver σ) (stackText : World σ → String) (type : Nat)
    (source : String) (w : World σ) : Nat × World σ :=
  let c := driverCall drv (GLCmd.glCreateShader type) w
  let id := c.1.uint
  let src := c_str source
  let w1 := (driverCall drv (GLCmd.glShaderSource id 1 src) c.2).2
  let w2 := (driverCall drv (GLCmd.glCompileShader id) w1).2
  let q := driverCall drv (GLCmd.glGetShaderiv id GL_COMPILE_STATUS) w2
  let result := q.1.int
  if result == GL_FALSE then
    let n := driverCall drv (GLCmd.glGetShaderiv id GL_INFO_LOG_LENGTH) q.2
    let length := n.1.int
    let g := driverCall drv (GLCmd.glGetShaderInfoLog id length) n.2
    let message := bufferText stackText length g.1.text g.2
    let w3 := coutWrite g.2
      ("Failed to Compile " ++
        (if type == GL_VERTEX_SHADER then "vertex shader" else "fragment shader") ++ "\n")
    let w4 := coutWrite w3 (message ++ "\n")
    let w5 := (driverCall drv (GLCmd.glDeleteShader id) w4).2
    (0, w5)
  else
    (id, q.2)

/-- Embedding of `CreateShader`. -/
def CreateShader {σ : Type} (drv : Driver σ) (stackText : World σ → String)
    (vertexShader fragmentShader : String) (w : World σ) : Nat × World σ :=
  let p := driverCall drv GLCmd.glCreateProgram w
  let program := p.1.uint
  let v := CompileShader drv stackText GL_VERTEX_SHADER vertexShader p.2
  let vs := v.1
  let f := CompileShader drv stackText GL_FRAGMENT_SHADER fragmentShader v.2
  let fs := f.1
  let w1 := (driverCall drv (GLCmd.glAttachShader program vs) f.2).2
  let w2 := (driverCall drv (GLCmd.glAttachShader program fs) w1).2
  let w3 := (driverCall drv (GLCmd.glLinkProgram program) w2).2
  let w4 := (driverCall drv (GLCmd.glValidateProgram program) w3).2
  let w5 := (driverCall drv (GLCmd.glDeleteShader vs) w4).2
  let w6 := (driverCall drv (GLCmd.glDeleteShader fs) w5).2
  (program, w6)

/-! ## A sample driver, used to run the embedding on concrete inputs -/

/-- Modelled from the spec: the index type "signed int" of a draw call, which
the driver rejects (`GL/glew.h`). -/
def GL_INT : Int := 0x1404

/-- Object state of the sample driver: the next free handle and the handles of
the shader objects whose source does not compile. -/
structure SampleState where
  next : Nat
  bad : List Nat
  deriving DecidableEq, Repr

/-- A sample driver.  Handles are handed out in increasing order from `next`;
a shader object given an empty source does not compile and has the log
`"ERROR: empty source"`; attaching the handle 0 raises `GL_INVALID_VALUE`; any
other call raises `GL_INVALID_ENUM` if `GL_INT` is among its arguments, then
`GL_INVALID_VALUE` if one of its arguments is negative. -/
def sampleDriver : Driver SampleState := fun cmd s =>
  match cmd with
  | GLCmd.glCreateShader _ =>
    { gl := { s with next := s.next + 1 }, raised := [], uint := s.next, int := 0, text := "" }
  | GLCmd.glCreateProgram =>
    { gl := { s with next := s.next + 1 }, raised := [], uint := s.next, int := 0, text := "" }
  | GLCmd.glShaderSource shader _ src =>
    { gl := if src.data = [] then { s with bad := shader :: s.bad } else s,
      raised := [], uint := 0, int := 0, text := "" }
  | GLCmd.glGetShaderiv shader pname =>
    { gl := s, raised := [], uint := 0,
      int := if pname = GL_COMPILE_STATUS then (if shader ∈ s.bad then GL_FALSE else GL_TRUE)
             else 20,
      text := "" }
  | GLCmd.glGetShaderInfoLog _ _ =>
    { gl := s, raised := [], uint := 0, int := 0, text := "ERROR: empty source" }
  | GLCmd.glAttachShader _ shader =>
    { gl := s, raised := if shader = 0 then [GL_INVALID_VALUE] else [],
      uint := 0, int := 0, text := "" }
  | GLCmd.other _ args =>
    { gl := s,
      raised := (if GL_INT ∈ args then [GL_INVALID_ENUM] else []) ++
                (if args.any (fun a => decide (a < 0)) then [GL_INVALID_VALUE] else []),
      uint := 0, int := 0, text := "" }
  | _ => { gl := s, raised := [], uint := 0, int := 0, text := "" }

/-- A start state of the sample driver: handles start at 1, and one stale
error code is queued. -/
def sampleWorld : World SampleState :=
  { gl := { next := 1, bad := [] }, errors := [0x0502], calls := [], cout := "",
    halted := false }

/-- A driver like the sample driver whose failed compilations leave no log: it
reports the log length 0 and has no text to store. -/
def silentDriver : Driver SampleState := fun cmd s =>
  match cmd with
  | GLCmd.glGetShaderiv shader pname =>
    if pname = GL_INFO_LOG_LENGTH then
      { gl := s, raised := [], uint := 0, int := 0, text := "" }
    else sampleDriver (GLCmd.glGetShaderiv shader pname) s
  | GLCmd.glGetShaderInfoLog _ _ =>
    { gl := s, raised := [], uint := 0, int := 0, text := "" }
  | _ => sampleDriver cmd s

/-- A sample content of the stack: an unwritten buffer reads as
`"@@stack bytes@@"`. -/
def sampleStack : World SampleState → String :=
  fun _ => "@@stack bytes@@"

/-! ## Vocabulary for the statements about the pipeline -/

/-- The two stage kinds. -/
inductive StageKind where
  | vertex
  | fragment
  deriving DecidableEq, Repr

/-- The driver's constant for a stage kind. -/
def StageKind.toGL : StageKind → Nat
  | StageKind.vertex => GL_VERTEX_SHADER
  | StageKind.fragment => GL_FRAGMENT_SHADER

/-- The name of a stage kind in the diagnostic stream. -/
def StageKind.label : StageKind → String
  | StageKind.vertex => "vertex shader"
  | StageKind.fragment => "fragment shader"

/-- The handle of the shader object that `CompileShader`, started in `w` for
the kind `type`, obtains from `glCreateShader`. -/
def shaderObject {σ : Type} (drv : Driver σ) (type : Nat) (w : World σ) : Nat :=
  (driverCall drv (GLCmd.glCreateShader type) w).1.uint

/-- The compile status that the driver reports to `CompileShader`, started in
`w`, for the object created in that call. -/
def compileStatus {σ : Type} (drv : Driver σ) (type : Nat) (source : String)
    (w : World σ) : Int :=
  let c := driverCall drv (GLCmd.glCreateShader type) w
  let id := c.1.uint
  let w1 := (driverCall drv (GLCmd.glShaderSource id 1 (c_str source)) c.2).2
  let w2 := (driverCall drv (GLCmd.glCompileShader id) w1).2
  (driverCall drv (GLCmd.glGetShaderiv id GL_COMPILE_STATUS) w2).1.int

/-- The info log that the driver hands to `CompileShader`, started in `w`, when
the compilation has failed: the reply to `glGetShaderInfoLog` asked with the
length the driver reported for `GL_INFO_LOG_LENGTH`. -/
def infoLog {σ : Type} (drv : Driver σ) (type : Nat) (source : String)
    (w : World σ) : String :=
  let c := driverCall drv (GLCmd.glCreateShader type) w
  let id := c.1.uint
  let w1 := (driverCall drv (GLCmd.glShaderSource id 1 (c_str source)) c.2).2
  let w2 := (driverCall drv (GLCmd.glCompileShader id) w1).2
  let q := driverCall drv (GLCmd.glGetShaderiv id GL_COMPILE_STATUS) w2
  let n := driverCall drv (GLCmd.glGetShaderiv id GL_INFO_LOG_LENGTH) q.2
  (driverCall drv (GLCmd.glGetShaderInfoLog id n.1.int) n.2).1.text

/-- The length the driver reports for the info log in the same run. -/
def infoLogLength {σ : Type} (drv : Driver σ) (type : Nat) (source : String)
    (w : World σ) : Int :=
  let c := driverCall drv (GLCmd.glCreateShader type) w
  let id := c.1.uint
  let w1 := (driverCall drv (GLCmd.glShaderSource id 1 (c_str source)) c.2).2
  let w2 := (driverCall drv (GLCmd.glCompileShader id) w1).2
  let q := driverCall drv (GLCmd.glGetShaderiv id GL_COMPILE_STATUS) w2
  (driverCall drv (GLCmd.glGetShaderiv id GL_INFO_LOG_LENGTH) q.2).1.int

/-- The driver calls of one run of `CompileShader` started in `w`, in order:
create, source, compile and status query on the created object, followed, when
the status is false, by the query of the log length, the retrieval of the log
and the deletion of the object. -/
def compileCmds {σ : Type} (drv : Driver σ) (type : Nat) (source : String)
    (w : World σ) : List GLCmd :=
  [GLCmd.glCreateShader type,
   GLCmd.glShaderSource (shaderObject drv type w) 1 (c_str source),
   GLCmd.glCompileShader (shaderObject drv type w),
   GLCmd.glGetShaderiv (shaderObject drv type w) GL_COMPILE_STATUS] ++
  (if compileStatus drv type source w = GL_FALSE then
    [GLCmd.glGetShaderiv (shaderObject drv type w) GL_INFO_LOG_LENGTH,
     GLCmd.glGetShaderInfoLog (shaderObject drv type w) (infoLogLength drv type source w),
     GLCmd.glDeleteShader (shaderObject drv type w)]
   else [])

/-- The driver run on the calls `cmds` from the object state `s`: the object
state after the last call, and the error codes raised by the calls, in call
order. -/
def replay {σ : Type} (drv : Driver σ) : List GLCmd → σ → σ × List Nat
  | [], s => (s, [])
  | cmd :: rest, s =>
    ((replay drv rest (drv cmd s).gl).1, (drv cmd s).raised ++ (replay drv rest (drv cmd s).gl).2)

/-- A driver call at position `i` of a record runs under the harness: the
entry right before it and the entry right after it are reads of the error
queue. -/
def wrappedAt (t : List GLEvent) (i : Nat) : Bool :=
  decide (1 ≤ i) && t.get? (i - 1) == some GLEvent.glGetError &&
    t.get? (i + 1) == some GLEvent.glGetError

/-- Every driver call of the record other than `glGetError` runs under the
harness. -/
def allCallsWrapped (t : List GLEvent) : Bool :=
  (List.range t.length).all fun i =>
    match t.get? i with
    | some (GLEvent.call _) => wrappedAt t i
    | _ => true

/-- The run from `w` to `w1` makes the driver calls `cmds` bare: the record
grows by exactly these calls (no read of the error queue among them), the
codes they raise are appended to the error queue in call order and none is
removed, and the halted flag is unchanged. -/
def Unchecked {σ : Type} (drv : Driver σ) (cmds : List GLCmd) (w w1 : World σ) : Prop :=
  w1.calls = w.calls ++ cmds.map GLEvent.call ∧
    w1.gl = (replay drv cmds w.gl).1 ∧
    w1.errors = w.errors ++ (replay drv cmds w.gl).2 ∧
    w1.halted = w.halted

/-! ## Facts about `find` -/

theorem findFrom_isSome (pat : List Char) (s : List Char) (pos : Nat) :
    (findFrom pat s pos).isSome = true ↔ pat <:+: s := by
  induction s generalizing pos with
  | nil =>
    cases pat with
    | nil => simp [findFrom]
    | cons a p => simp [findFrom]
  | cons c cs ih =>
    rw [List.infix_cons_iff, findFrom]
    by_cases hp : pat.isPrefixOf (c :: cs) = true
    · simp [hp, List.isPrefixOf_iff_prefix.mp hp]
    · have hn : ¬ pat <+: c :: cs := fun h => hp (List.isPrefixOf_iff_prefix.mpr h)
      simp [hp, hn, ih]

theorem find_ne_none (s pat : String) :
    (find s pat != none) = containsText s pat := by
  unfold find containsText
  have h := findFrom_isSome pat.data s.data 0
  cases hf : findFrom pat.data s.data 0 with
  | none =>
    rw [hf] at h
    have : ¬ pat.data <:+: s.data := fun hc => by simpa using h.mpr hc
    simp [this]
  | some n =>
    rw [hf] at h
    have : pat.data <:+: s.data := h.mp rfl
    simp [this]

/-- The loop body in terms of the text a line contains. -/
theorem parseStep_eq (st : ParseState) (line : String) :
    parseStep st line =
      if isHeader line then
        match selectedStage line with
        | some t => Except.ok { st with type := t }
        | none => Except.ok st
      else ssAppend st st.type.toInt (line ++ "\n") := by
  unfold parseStep isHeader selectedStage
  simp only [find_ne_none]
  by_cases h : containsText line "#shader" = true
  · by_cases hv : containsText line "vertex" = true
    · simp [h, hv]
    · by_cases hf : containsText line "fragment" = true
      · simp [h, hv, hf]
      · simp [h, hv, hf]
  · simp [h]


/-! ## The parse loop against the reference definition -/

theorem join_cons (a : String) (l : List String) :
    String.join (a :: l) = a ++ String.join l := by
  apply String.ext
  simp [String.data_join, String.data_append]

theorem join_nil : String.join [] = "" := rfl

theorem refLinesFrom_nil (stage : ShaderType) (before : List String) :
    refLinesFrom stage before [] = [] := by
  simp [refLinesFrom]

theorem refLinesFrom_cons (stage : ShaderType) (before : List String) (l : String)
    (rest : List String) :
    refLinesFrom stage before (l :: rest) =
      (if (!isHeader l && nearestSelects before stage) = true then [l ++ "\n"] else []) ++
        refLinesFrom stage (before ++ [l]) rest := by
  have hmap : List.map (fun t => before ++ t) (List.map (fun t => l :: t) rest.inits) =
      List.map (fun t => (before ++ [l]) ++ t) rest.inits := by
    rw [List.map_map]
    apply List.map_congr_left
    intro t _
    simp
  unfold refLinesFrom
  rw [List.inits_cons, List.map_cons, List.zip_cons_cons, List.filter_cons, hmap]
  by_cases hc : (!isHeader l && nearestSelects before stage) = true
  · simp [hc]
  · simp [hc]

theorem refSection_eq (stage : ShaderType) (lines : List String) :
    refSection stage lines = String.join (refLinesFrom stage [] lines) := by
  unfold refSection refLinesFrom
  simp

theorem nearestSelects_snoc (before : List String) (l : String) (stage : ShaderType) :
    nearestSelects (before ++ [l]) stage =
      if isSelecting l = true then selectedStage l == some stage
      else nearestSelects before stage := by
  unfold nearestSelects
  rw [List.reverse_append, List.reverse_singleton, List.singleton_append, List.find?_cons]
  by_cases h : isSelecting l = true
  · simp [h]
  · simp [h]

theorem isSelecting_of_selected {l : String} {t : ShaderType} (hh : isHeader l = true)
    (hs : selectedStage l = some t) : isSelecting l = true := by
  unfold isSelecting
  unfold selectedStage at hs
  by_cases hv : containsText l "vertex" = true
  · simp [hh, hv]
  · by_cases hf : containsText l "fragment" = true
    · simp [hh, hf]
    · simp [hv, hf] at hs

theorem not_isSelecting_of_none {l : String} (hs : selectedStage l = none) :
    isSelecting l = false := by
  unfold isSelecting
  unfold selectedStage at hs
  by_cases hv : containsText l "vertex" = true
  · simp [hv] at hs
  · by_cases hf : containsText l "fragment" = true
    · simp [hv, hf] at hs
    · simp [hv, hf]

theorem selectedStage_ne_NONE {l : String} {t : ShaderType} (hs : selectedStage l = some t) :
    t = ShaderType.VERTEX ∨ t = ShaderType.FRAGMENT := by
  unfold selectedStage at hs
  by_cases hv : containsText l "vertex" = true
  · simp [hv] at hs; exact Or.inl hs.symm
  · by_cases hf : containsText l "fragment" = true
    · simp [hv, hf] at hs; exact Or.inr hs.symm
    · simp [hv, hf] at hs

/-- Invariant of the loop once a selecting header has been read: the selector
is the stage chosen by the nearest selecting header of the lines read so far,
and the loop runs to the end appending the reference lines of each stage. -/
theorem parseLoop_ref (rest : List String) :
    ∀ (before : List String) (st : ParseState),
      (st.type = ShaderType.VERTEX ∨ st.type = ShaderType.FRAGMENT) →
      (∀ stage, nearestSelects before stage = (some st.type == some stage)) →
      ∃ t, parseLoop st rest = Except.ok
        { type := t,
          ss0 := st.ss0 ++ String.join (refLinesFrom ShaderType.VERTEX before rest),
          ss1 := st.ss1 ++ String.join (refLinesFrom ShaderType.FRAGMENT before rest) } := by
  induction rest with
  | nil =>
    intro before st _ _
    exact ⟨st.type, by simp [parseLoop, refLinesFrom_nil, join_nil]⟩
  | cons l rest ih =>
    intro before st hty hinv
    rw [parseLoop, parseStep_eq, refLinesFrom_cons, refLinesFrom_cons]
    by_cases hh : isHeader l = true
    · simp only [hh, if_true]
      cases hs : selectedStage l with
      | none =>
        have hns := not_isSelecting_of_none hs
        have hinv2 : ∀ stage, nearestSelects (before ++ [l]) stage =
            (some st.type == some stage) := by
          intro stage
          rw [nearestSelects_snoc, hns]
          simpa using hinv stage
        obtain ⟨t, ht⟩ := ih (before ++ [l]) st hty hinv2
        exact ⟨t, by simpa using ht⟩
      | some t0 =>
        have hsel := isSelecting_of_selected hh hs
        have hinv2 : ∀ stage, nearestSelects (before ++ [l]) stage =
            (some ({ st with type := t0 } : ParseState).type == some stage) := by
          intro stage
          rw [nearestSelects_snoc, hsel, hs]
          simp
        obtain ⟨t, ht⟩ := ih (before ++ [l]) { st with type := t0 }
          (selectedStage_ne_NONE hs) hinv2
        exact ⟨t, by simpa using ht⟩
    · have hh2 : isHeader l = false := by simpa using hh
      have hns : isSelecting l = false := by simp [isSelecting, hh2]
      have hv := hinv ShaderType.VERTEX
      have hf := hinv ShaderType.FRAGMENT
      rcases hty with hty | hty
      · have hinv2 : ∀ stage, nearestSelects (before ++ [l]) stage =
            (some ({ st with ss0 := st.ss0 ++ (l ++ "\n") } : ParseState).type == some stage) := by
          intro stage
          rw [nearestSelects_snoc, hns]
          simpa using hinv stage
        obtain ⟨t, ht⟩ := ih (before ++ [l]) { st with ss0 := st.ss0 ++ (l ++ "\n") }
          (Or.inl hty) hinv2
        refine ⟨t, ?_⟩
        rw [hty] at hv hf
        simp only [hh2, hv, hf, hty, ssAppend, ShaderType.toInt]
        simpa [join_cons, String.append_assoc, hty] using ht
      · have hinv2 : ∀ stage, nearestSelects (before ++ [l]) stage =
            (some ({ st with ss1 := st.ss1 ++ (l ++ "\n") } : ParseState).type == some stage) := by
          intro stage
          rw [nearestSelects_snoc, hns]
          simpa using hinv stage
        obtain ⟨t, ht⟩ := ih (before ++ [l]) { st with ss1 := st.ss1 ++ (l ++ "\n") }
          (Or.inr hty) hinv2
        refine ⟨t, ?_⟩
        rw [hty] at hv hf
        simp only [hh2, hv, hf, hty, ssAppend, ShaderType.toInt]
        simpa [join_cons, String.append_assoc, hty] using ht


/-! ## Text that is never part of a result -/

theorem prefix_of_prefix_sep {sep : Char} (a b : List Char) :
    ∀ pat : List Char, sep ∉ pat → pat <+: a ++ sep :: b → pat <+: a := by
  induction a with
  | nil =>
    intro pat hsep hp
    cases pat with
    | nil => exact List.nil_prefix
    | cons p ps =>
      rw [List.nil_append, List.cons_prefix_cons] at hp
      exact absurd (by simp [hp.1]) hsep
  | cons x a ih =>
    intro pat hsep hp
    cases pat with
    | nil => exact List.nil_prefix
    | cons p ps =>
      rw [List.cons_append, List.cons_prefix_cons] at hp
      rw [List.cons_prefix_cons]
      exact ⟨hp.1, ih ps (fun hm => hsep (List.mem_cons_of_mem _ hm)) hp.2⟩

theorem infix_of_infix_sep {sep : Char} (pat : List Char) (hsep : sep ∉ pat) (b : List Char) :
    ∀ a : List Char, pat <:+: a ++ sep :: b → pat <:+: a ∨ pat <:+: b := by
  intro a
  induction a with
  | nil =>
    intro hp
    rw [List.nil_append, List.infix_cons_iff] at hp
    rcases hp with hp | hp
    · exact Or.inl (prefix_of_prefix_sep [] b pat hsep (by simpa using hp)).isInfix
    · exact Or.inr hp
  | cons x a ih =>
    intro hp
    rw [List.cons_append, List.infix_cons_iff] at hp
    rcases hp with hp | hp
    · exact Or.inl (prefix_of_prefix_sep (x :: a) b pat hsep (by simpa using hp)).isInfix
    · rcases ih hp with h | h
      · exact Or.inl (List.infix_cons h)
      · exact Or.inr h

/-- A text without newline that occurs in none of the lines does not occur in
the concatenation of the lines, each followed by its newline. -/
theorem not_infix_join (pat : List Char) (hne : pat ≠ []) (hsep : '\n' ∉ pat) :
    ∀ xs : List String, (∀ x ∈ xs, ∃ l : String, x = l ++ "\n" ∧ ¬ pat <:+: l.data) →
      ¬ pat <:+: (String.join xs).data := by
  intro xs
  induction xs with
  | nil =>
    intro _ hp
    have : pat = [] := by simpa [join_nil] using hp
    exact hne this
  | cons x xs ih =>
    intro hx hp
    obtain ⟨l, hl, hnl⟩ := hx x (List.mem_cons_self _ _)
    rw [join_cons, hl, String.data_append, String.data_append] at hp
    have hp2 : pat <:+: l.data ++ '\n' :: (String.join xs).data := by
      simpa [List.append_assoc] using hp
    rcases infix_of_infix_sep pat hsep _ _ hp2 with h | h
    · exact hnl h
    · exact ih (fun y hy => hx y (List.mem_cons_of_mem _ hy)) h

theorem refLinesFrom_lines (stage : ShaderType) (before rest : List String) :
    ∀ x ∈ refLinesFrom stage before rest,
      ∃ l : String, x = l ++ "\n" ∧ ¬ "#shader".data <:+: l.data := by
  intro x hx
  unfold refLinesFrom at hx
  rw [List.mem_map] at hx
  obtain ⟨p, hp, rfl⟩ := hx
  rw [List.mem_filter] at hp
  refine ⟨p.2, rfl, ?_⟩
  have h := hp.2
  simp only [Bool.and_eq_true, Bool.not_eq_true', isHeader, containsText,
    decide_eq_false_iff_not] at h
  exact h.1

theorem refSection_no_marker (stage : ShaderType) (lines : List String) :
    ¬ "#shader".data <:+: (refSection stage lines).data := by
  rw [refSection_eq]
  exact not_infix_join "#shader".data (by decide) (by decide) _ (refLinesFrom_lines stage [] lines)

/-! ## Lines without `#shader`: after a vertex header, and before any header -/

theorem parseLoop_body (body : List String) (hbody : ∀ l ∈ body, ¬ "#shader".data <:+: l.data) :
    ∀ s0 s1 : String,
      parseLoop { type := ShaderType.VERTEX, ss0 := s0, ss1 := s1 } body =
        Except.ok { type := ShaderType.VERTEX,
                    ss0 := s0 ++ String.join (body.map (fun l => l ++ "\n")),
                    ss1 := s1 } := by
  induction body with
  | nil => intro s0 s1; simp [parseLoop, join_nil]
  | cons l body ih =>
    intro s0 s1
    have hl : isHeader l = false := by
      simpa [isHeader, containsText] using hbody l (List.mem_cons_self _ _)
    rw [parseLoop, parseStep_eq]
    simp only [hl, ssAppend, ShaderType.toInt]
    simp only [Bool.false_eq_true, if_false, if_true]
    rw [ih (fun x hx => hbody x (List.mem_cons_of_mem _ hx))]
    simp [join_cons, String.append_assoc]

/-- A file whose first line is not a header makes the loop subscript `ss` with
`(int)ShaderType::NONE`, that is with -1. -/
theorem ParseShader_leading_text (l : String) (rest : List String)
    (hl : ¬ "#shader".data <:+: l.data) :
    ParseShader (l :: rest) = Except.error (ParseFault.outOfRange (-1)) := by
  have hh : isHeader l = false := by simpa [isHeader, containsText] using hl
  unfold ParseShader
  rw [parseLoop, parseStep_eq]
  simp [hh, ssAppend, parseInit, ShaderType.toInt]


/-- The loop runs to the end exactly when every subscript it uses is 0 or 1. -/
theorem parseLoop_ok_iff (lines : List String) :
    ∀ st : ParseState, (∃ st1, parseLoop st lines = Except.ok st1) ↔
      ∀ i ∈ appendIndices st.type lines, i = 0 ∨ i = 1 := by
  induction lines with
  | nil => intro st; simp [parseLoop, appendIndices]
  | cons l rest ih =>
    intro st
    rw [parseLoop, appendIndices, parseStep]
    by_cases hm : (find l "#shader" != none) = true
    · by_cases hv : (find l "vertex" != none) = true
      · simp only [hm, hv, if_true]
        exact ih { st with type := ShaderType.VERTEX }
      · by_cases hf : (find l "fragment" != none) = true
        · simp only [hm, hv, hf, if_true, if_false]
          exact ih { st with type := ShaderType.FRAGMENT }
        · simp only [hm, hv, hf, if_true, if_false]
          exact ih st
    · simp only [hm, if_false]
      cases hty : st.type with
      | NONE => simp [ssAppend, ShaderType.toInt]
      | VERTEX =>
        have := ih { st with ss0 := st.ss0 ++ (l ++ "\n") }
        simp only [hty] at this
        simpa [ssAppend, ShaderType.toInt, hty] using this
      | FRAGMENT =>
        have := ih { st with ss1 := st.ss1 ++ (l ++ "\n") }
        simp only [hty] at this
        simpa [ssAppend, ShaderType.toInt, hty] using this

/-! ## Claims about `ParseShader` -/

/-- C1: on every file whose first line is a selecting header (it contains
`#shader` and `vertex` or `fragment`) `ParseShader` returns the reference
result: each source is the concatenation, in file order, of `line ++ "\n"` for
exactly the non-header lines whose nearest preceding selecting header selected
that stage; and neither returned source contains the text `#shader`. -/
theorem ParseShader_eq_refParse (h : String) (rest : List String)
    (hmark : "#shader".data <:+: h.data)
    (hstage : "vertex".data <:+: h.data ∨ "fragment".data <:+: h.data) :
    ParseShader (h :: rest) = Except.ok (refParse (h :: rest)) ∧
      ¬ "#shader".data <:+: (refParse (h :: rest)).VertexSource.data ∧
      ¬ "#shader".data <:+: (refParse (h :: rest)).FragmentSource.data := by
  refine ⟨?_, refSection_no_marker _ _, refSection_no_marker _ _⟩
  have hh : isHeader h = true := by simpa [isHeader, containsText] using hmark
  have hsome : ∃ t0, selectedStage h = some t0 := by
    unfold selectedStage
    by_cases hv : containsText h "vertex" = true
    · exact ⟨ShaderType.VERTEX, by simp [hv]⟩
    · rcases hstage with hs | hs
      · exact absurd (by simpa [containsText] using hs) hv
      · have hf : containsText h "fragment" = true := by simpa [containsText] using hs
        exact ⟨ShaderType.FRAGMENT, by simp [hv, hf]⟩
  obtain ⟨t0, hs⟩ := hsome
  have hsel := isSelecting_of_selected hh hs
  have hinv : ∀ stage, nearestSelects ([] ++ [h]) stage =
      (some ({ parseInit with type := t0 } : ParseState).type == some stage) := by
    intro stage
    rw [nearestSelects_snoc, hsel, hs]
    simp
  obtain ⟨t, ht⟩ := parseLoop_ref rest ([] ++ [h]) { parseInit with type := t0 }
    (selectedStage_ne_NONE hs) hinv
  unfold ParseShader refParse
  rw [parseLoop, parseStep_eq]
  simp only [hh, hs, if_true]
  rw [ht, refSection_eq, refSection_eq, refLinesFrom_cons, refLinesFrom_cons]
  simp [hh, parseInit]

/-- Witness of C1: a file with two vertex sections around a fragment section
and a header naming neither stage. -/
theorem ParseShader_eq_refParse_witness :
    ("#shader".data <:+: "#shader vertex".data ∧
      ("vertex".data <:+: "#shader vertex".data ∨ "fragment".data <:+: "#shader vertex".data)) ∧
    (ParseShader ["#shader vertex", "a", "#shader fragment", "b", "#shader geometry", "c",
        "#shader vertex", "d"] =
      Except.ok (refParse ["#shader vertex", "a", "#shader fragment", "b", "#shader geometry",
        "c", "#shader vertex", "d"]) ∧
      ¬ "#shader".data <:+: (refParse ["#shader vertex", "a", "#shader fragment", "b",
        "#shader geometry", "c", "#shader vertex", "d"]).VertexSource.data ∧
      ¬ "#shader".data <:+: (refParse ["#shader vertex", "a", "#shader fragment", "b",
        "#shader geometry", "c", "#shader vertex", "d"]).FragmentSource.data) :=
  ⟨⟨by decide, Or.inl (by decide)⟩,
    ParseShader_eq_refParse "#shader vertex"
      ["a", "#shader fragment", "b", "#shader geometry", "c", "#shader vertex", "d"]
      (by decide) (Or.inl (by decide))⟩

/-- C5 (evaluation of the code): a comment line before the first header is not
dropped; the loop subscripts `ss` with -1 for it, while the same file without
that line parses to the vertex section alone. -/
theorem ParseShader_text_before_header :
    ParseShader ["// basic shader", "#shader vertex", "void main() {}"] =
        Except.error (ParseFault.outOfRange (-1)) ∧
      ParseShader ["#shader vertex", "void main() {}"] =
        Except.ok { VertexSource := "void main() {}\n", FragmentSource := "" } ∧
      ParseShader ["void main() {}"] = Except.error (ParseFault.outOfRange (-1)) := by
  decide

/-- C6 (evaluation of the code): for a file that starts with a line without
`#shader` the first append executed by the loop uses the subscript -1, the value
of `(int)ShaderType::NONE`, and the loop does not run to the end. -/
theorem appendIndices_out_of_range :
    appendIndices ShaderType.NONE ["// basic shader", "#shader vertex", "void main() {}"] = [-1] ∧
      ssAppend parseInit parseInit.type.toInt "// basic shader\n" =
        Except.error (ParseFault.outOfRange (-1)) ∧
      parseLoop parseInit ["// basic shader", "#shader vertex", "void main() {}"] =
        Except.error (ParseFault.outOfRange (-1)) := by
  decide

theorem parseLoop_append (a b : List String) :
    ∀ st : ParseState, parseLoop st (a ++ b) =
      match parseLoop st a with
      | Except.ok st1 => parseLoop st1 b
      | Except.error e => Except.error e := by
  induction a with
  | nil => intro st; simp [parseLoop]
  | cons l a ih =>
    intro st
    rw [List.cons_append, parseLoop, parseLoop]
    cases parseStep st l with
    | error e => rfl
    | ok st1 => exact ih st1

/-- C10: on a header line `vertex` takes precedence over `fragment`.  Let the
line `h` contain `#shader`, `vertex` and `fragment`, and let it be followed by
the lines `body`, none of which contains `#shader`.  Whatever lines `pre`
precede `h` (provided `ParseShader` returns a result `src` for them), the
result returned by `ParseShader` for the whole file has the lines of `body`
appended to the `VertexSource` of `src` and has the `FragmentSource` of `src`
unchanged; in the loop, `h` sets the selector to `VERTEX` from any state. -/
theorem vertex_takes_precedence (pre : List String) (src : ShaderProgramSource)
    (h : String) (body : List String)
    (hpre : ParseShader pre = Except.ok src)
    (hmark : "#shader".data <:+: h.data)
    (hv : "vertex".data <:+: h.data) (hf : "fragment".data <:+: h.data)
    (hbody : ∀ l ∈ body, ¬ "#shader".data <:+: l.data) :
    ParseShader (pre ++ h :: body) =
        Except.ok { VertexSource :=
                      src.VertexSource ++ String.join (body.map (fun l => l ++ "\n")),
                    FragmentSource := src.FragmentSource } ∧
      ∀ st : ParseState,
        parseStep st h = Except.ok { st with type := ShaderType.VERTEX } ∧
        parseLoop st (h :: body) =
          Except.ok { type := ShaderType.VERTEX,
                      ss0 := st.ss0 ++ String.join (body.map (fun l => l ++ "\n")),
                      ss1 := st.ss1 } := by
  have _hfrag : containsText h "fragment" = true := by simpa [containsText] using hf
  have hh : isHeader h = true := by simpa [isHeader, containsText] using hmark
  have hs : selectedStage h = some ShaderType.VERTEX := by
    have : containsText h "vertex" = true := by simpa [containsText] using hv
    simp [selectedStage, this]
  have hstep : ∀ st : ParseState,
      parseStep st h = Except.ok { st with type := ShaderType.VERTEX } := by
    intro st
    rw [parseStep_eq]; simp [hh, hs]
  have hloop : ∀ st : ParseState, parseLoop st (h :: body) =
      Except.ok { type := ShaderType.VERTEX,
                  ss0 := st.ss0 ++ String.join (body.map (fun l => l ++ "\n")),
                  ss1 := st.ss1 } := by
    intro st
    rw [parseLoop, hstep st]
    exact parseLoop_body body hbody st.ss0 st.ss1
  refine ⟨?_, fun st => ⟨hstep st, hloop st⟩⟩
  unfold ParseShader at hpre ⊢
  rw [parseLoop_append]
  cases hl : parseLoop parseInit pre with
  | error e => rw [hl] at hpre; simp at hpre
  | ok st =>
    rw [hl] at hpre
    simp only [Except.ok.injEq] at hpre
    simp only [hloop st]
    rw [← hpre]

/-- Witness of C10: `fragment` written before `vertex` on the header line, read
after a fragment section. -/
theorem vertex_takes_precedence_witness :
    (ParseShader ["#shader fragment", "f"] =
        Except.ok { VertexSource := "", FragmentSource := "f\n" } ∧
      "#shader".data <:+: "#shader fragment vertex".data ∧
      "vertex".data <:+: "#shader fragment vertex".data ∧
      "fragment".data <:+: "#shader fragment vertex".data ∧
      (∀ l ∈ ["a", "b"], ¬ "#shader".data <:+: l.data)) ∧
    (ParseShader (["#shader fragment", "f"] ++ "#shader fragment vertex" :: ["a", "b"]) =
        Except.ok { VertexSource := "" ++ String.join (["a", "b"].map (fun l => l ++ "\n")),
                    FragmentSource := "f\n" } ∧
      ∀ st : ParseState,
        parseStep st "#shader fragment vertex" =
          Except.ok { st with type := ShaderType.VERTEX } ∧
        parseLoop st ("#shader fragment vertex" :: ["a", "b"]) =
          Except.ok { type := ShaderType.VERTEX,
                      ss0 := st.ss0 ++ String.join (["a", "b"].map (fun l => l ++ "\n")),
                      ss1 := st.ss1 }) :=
  ⟨⟨by decide, by decide, by decide, by decide, by decide⟩,
    vertex_takes_precedence ["#shader fragment", "f"]
      { VertexSource := "", FragmentSource := "f\n" }
      "#shader fragment vertex" ["a", "b"] (by decide) (by decide) (by decide) (by decide)
      (by decide)⟩

/-- The result of the witness file of C10, evaluated. -/
theorem vertex_takes_precedence_sample :
    ParseShader ["#shader fragment", "f", "#shader fragment vertex", "a", "b"] =
      Except.ok { VertexSource := "a\nb\n", FragmentSource := "f\n" } := by
  decide

/-! ## The error harness -/

/-- On a queue of `n` error codes (`GL_NO_ERROR` is never queued) the loop of
`GLClearErrors` reads the queue `n + 1` times and leaves it empty. -/
theorem GLClearErrors_spec {σ : Type} (n : Nat) :
    ∀ w : World σ, w.errors.length = n → (∀ e ∈ w.errors, e ≠ GL_NO_ERROR) →
      GLClearErrors w =
        { w with errors := [],
                 calls := w.calls ++ List.replicate (n + 1) GLEvent.glGetError } := by
  induction n with
  | zero =>
    intro w hlen _
    have hq : w.errors = [] := List.length_eq_zero.mp hlen
    rw [GLClearErrors]
    simp [glGetError, hq]
  | succ n ih =>
    intro w hlen hne
    cases hq : w.errors with
    | nil => rw [hq] at hlen; simp at hlen
    | cons e q =>
      have he : e ≠ GL_NO_ERROR := hne e (by simp [hq])
      rw [GLClearErrors]
      have h1 : glGetError w =
          (e, { w with errors := q, calls := w.calls ++ [GLEvent.glGetError] }) := by
        simp [glGetError, hq]
      rw [h1]
      simp only [bne_iff_ne, ne_eq, he, not_false_eq_true, if_true]
      rw [ih { w with errors := q, calls := w.calls ++ [GLEvent.glGetError] }
        (by rw [hq] at hlen; simpa using hlen)
        (fun x hx => hne x (by simp [hq, hx]))]
      simp [List.replicate_succ]


/-- The state `GLCall(x)` ends in, by the codes `x` raises: with none the
check reads an empty queue; otherwise the check removes and prints the oldest
code alone and `ASSERT` reaches `__debugbreak()`. -/
theorem GLCall_eq {σ : Type} (drv : Driver σ) (x : GLCmd) (xText file : String) (line : Int)
    (w : World σ) (hq : ∀ e ∈ w.errors, e ≠ GL_NO_ERROR)
    (hx : ∀ e ∈ (drv x w.gl).raised, e ≠ GL_NO_ERROR) :
    GLCall drv x xText file line w =
      match (drv x w.gl).raised with
      | [] =>
        { gl := (drv x w.gl).gl, errors := [],
          calls := w.calls ++ List.replicate (w.errors.length + 1) GLEvent.glGetError ++
            [GLEvent.call x, GLEvent.glGetError],
          cout := w.cout, halted := w.halted }
      | e :: q =>
        { gl := (drv x w.gl).gl, errors := q,
          calls := w.calls ++ List.replicate (w.errors.length + 1) GLEvent.glGetError ++
            [GLEvent.call x, GLEvent.glGetError],
          cout := w.cout ++ ("[OpenGL Error] (" ++ toString e ++ ") " ++ xText ++ " " ++ file ++
            ": " ++ toString line ++ "\n"),
          halted := true } := by
  unfold GLCall
  rw [GLClearErrors_spec w.errors.length w rfl hq]
  cases hr : (drv x w.gl).raised with
  | nil =>
    simp [driverCall, GLLogCall, glGetError, ASSERT, hr, GL_NO_ERROR]
  | cons e q =>
    have he : e ≠ 0 := hx e (by simp [hr])
    simp [driverCall, GLLogCall, glGetError, ASSERT, hr, he, coutWrite]

/-- C2: `GLCall` is clear-then-check.  Whatever error codes are queued when
`GLCall(x)` starts, it halts (reaches `__debugbreak()`) exactly when `x` itself
raises at least one error code; when `x` raises none, nothing is printed,
execution is not halted and the error queue is left empty. -/
theorem GLCall_clear_then_check {σ : Type} (drv : Driver σ) (x : GLCmd)
    (xText file : String) (line : Int) (w : World σ)
    (hq : ∀ e ∈ w.errors, e ≠ GL_NO_ERROR)
    (hx : ∀ e ∈ (drv x w.gl).raised, e ≠ GL_NO_ERROR)
    (hrun : w.halted = false) :
    ((GLCall drv x xText file line w).halted = true ↔ (drv x w.gl).raised ≠ []) ∧
      ((drv x w.gl).raised = [] →
        (GLCall drv x xText file line w).cout = w.cout ∧
        (GLCall drv x xText file line w).halted = false ∧
        (GLCall drv x xText file line w).errors = []) := by
  rw [GLCall_eq drv x xText file line w hq hx]
  cases hr : (drv x w.gl).raised with
  | nil => simp [hrun]
  | cons e q => simp


/-- Witness of C2: a draw call that raises nothing, wrapped while a stale
error code is queued. -/
theorem GLCall_clear_then_check_witness :
    ((∀ e ∈ sampleWorld.errors, e ≠ GL_NO_ERROR) ∧
      (∀ e ∈ (sampleDriver (GLCmd.other "glDrawElements" [4, 6, 0x1405, 0])
          sampleWorld.gl).raised, e ≠ GL_NO_ERROR) ∧
      sampleWorld.halted = false) ∧
    (((GLCall sampleDriver (GLCmd.other "glDrawElements" [4, 6, 0x1405, 0])
          "glDrawElements(GL_TRIANGLES, 6, GL_UNSIGNED_INT, nullptr)" "Application.cpp" 340
          sampleWorld).halted = true ↔
        (sampleDriver (GLCmd.other "glDrawElements" [4, 6, 0x1405, 0])
          sampleWorld.gl).raised ≠ []) ∧
      ((sampleDriver (GLCmd.other "glDrawElements" [4, 6, 0x1405, 0])
          sampleWorld.gl).raised = [] →
        (GLCall sampleDriver (GLCmd.other "glDrawElements" [4, 6, 0x1405, 0])
          "glDrawElements(GL_TRIANGLES, 6, GL_UNSIGNED_INT, nullptr)" "Application.cpp" 340
          sampleWorld).cout = sampleWorld.cout ∧
        (GLCall sampleDriver (GLCmd.other "glDrawElements" [4, 6, 0x1405, 0])
          "glDrawElements(GL_TRIANGLES, 6, GL_UNSIGNED_INT, nullptr)" "Application.cpp" 340
          sampleWorld).halted = false ∧
        (GLCall sampleDriver (GLCmd.other "glDrawElements" [4, 6, 0x1405, 0])
          "glDrawElements(GL_TRIANGLES, 6, GL_UNSIGNED_INT, nullptr)" "Application.cpp" 340
          sampleWorld).errors = [])) :=
  ⟨⟨by decide, by decide, by decide⟩,
    GLCall_clear_then_check sampleDriver (GLCmd.other "glDrawElements" [4, 6, 0x1405, 0])
      "glDrawElements(GL_TRIANGLES, 6, GL_UNSIGNED_INT, nullptr)" "Application.cpp" 340
      sampleWorld (by decide) (by decide) (by decide)⟩

/-- C8: when the wrapped call `x` raises exactly one error code `e`, whatever
is queued beforehand, `GLCall(x)` writes exactly one diagnostic line, made of
the code `e`, the text of `x`, the file name and the line number of the call
site, and halts. -/
theorem GLCall_single_error {σ : Type} (drv : Driver σ) (x : GLCmd)
    (xText file : String) (line : Int) (w : World σ) (e : Nat)
    (hq : ∀ c ∈ w.errors, c ≠ GL_NO_ERROR)
    (he : e ≠ GL_NO_ERROR)
    (hx : (drv x w.gl).raised = [e]) :
    (GLCall drv x xText file line w).cout =
        w.cout ++ ("[OpenGL Error] (" ++ toString e ++ ") " ++ xText ++ " " ++ file ++ ": " ++
          toString line ++ "\n") ∧
      (GLCall drv x xText file line w).halted = true ∧
      (GLCall drv x xText file line w).errors = [] := by
  rw [GLCall_eq drv x xText file line w hq (by intro c hc; rw [hx] at hc; simp at hc; rw [hc]; exact he)]
  rw [hx]
  simp

/-- Witness of C8: the draw call of the render loop with the index type
`GL_INT`, which raises `GL_INVALID_ENUM` alone. -/
theorem GLCall_single_error_witness :
    ((∀ c ∈ sampleWorld.errors, c ≠ GL_NO_ERROR) ∧ GL_INVALID_ENUM ≠ GL_NO_ERROR ∧
      (sampleDriver (GLCmd.other "glDrawElements" [4, 6, GL_INT, 0]) sampleWorld.gl).raised =
        [GL_INVALID_ENUM]) ∧
    ((GLCall sampleDriver (GLCmd.other "glDrawElements" [4, 6, GL_INT, 0])
          "glDrawElements(GL_TRIANGLES, 6, GL_INT, nullptr)" "Application.cpp" 340
          sampleWorld).cout =
        sampleWorld.cout ++ ("[OpenGL Error] (" ++ toString GL_INVALID_ENUM ++ ") " ++
          "glDrawElements(GL_TRIANGLES, 6, GL_INT, nullptr)" ++ " " ++ "Application.cpp" ++ ": " ++
          toString (340 : Int) ++ "\n") ∧
      (GLCall sampleDriver (GLCmd.other "glDrawElements" [4, 6, GL_INT, 0])
          "glDrawElements(GL_TRIANGLES, 6, GL_INT, nullptr)" "Application.cpp" 340
          sampleWorld).halted = true ∧
      (GLCall sampleDriver (GLCmd.other "glDrawElements" [4, 6, GL_INT, 0])
          "glDrawElements(GL_TRIANGLES, 6, GL_INT, nullptr)" "Application.cpp" 340
          sampleWorld).errors = []) :=
  ⟨⟨by decide, by decide, by decide⟩,
    GLCall_single_error sampleDriver (GLCmd.other "glDrawElements" [4, 6, GL_INT, 0])
      "glDrawElements(GL_TRIANGLES, 6, GL_INT, nullptr)" "Application.cpp" 340
      sampleWorld GL_INVALID_ENUM (by decide) (by decide) (by decide)⟩

/-- C7 (evaluation of the code): with the two codes `GL_INVALID_ENUM` and
`GL_INVALID_VALUE` queued by the wrapped call, `GLLogCall` writes one line, for
the first code, returns `false` and leaves the second code in the queue; so
does `GLCall` around a draw call that raises both codes. -/
theorem GLLogCall_two_errors :
    GLLogCall "glDrawElements(GL_TRIANGLES, -6, GL_INT, nullptr)" "Application.cpp" 340
        { sampleWorld with errors := [GL_INVALID_ENUM, GL_INVALID_VALUE] } =
      (false,
        { sampleWorld with
          errors := [GL_INVALID_VALUE],
          calls := [GLEvent.glGetError],
          cout := "[OpenGL Error] (1280) glDrawElements(GL_TRIANGLES, -6, GL_INT, nullptr) Application.cpp: 340\n" }) ∧
    (sampleDriver (GLCmd.other "glDrawElements" [4, -6, GL_INT, 0]) sampleWorld.gl).raised =
      [GL_INVALID_ENUM, GL_INVALID_VALUE] ∧
    (GLCall sampleDriver (GLCmd.other "glDrawElements" [4, -6, GL_INT, 0])
        "glDrawElements(GL_TRIANGLES, -6, GL_INT, nullptr)" "Application.cpp" 340
        sampleWorld).cout =
      "[OpenGL Error] (1280) glDrawElements(GL_TRIANGLES, -6, GL_INT, nullptr) Application.cpp: 340\n" ∧
    (GLCall sampleDriver (GLCmd.other "glDrawElements" [4, -6, GL_INT, 0])
        "glDrawElements(GL_TRIANGLES, -6, GL_INT, nullptr)" "Application.cpp" 340
        sampleWorld).errors = [GL_INVALID_VALUE] := by
  refine ⟨by decide, by decide, ?_, ?_⟩
  · rw [GLCall_eq _ _ _ _ _ _ (by decide) (by decide)]
    decide
  · rw [GLCall_eq _ _ _ _ _ _ (by decide) (by decide)]
    decide


/-! ## The shader pipeline -/

theorem replay_append {σ : Type} (drv : Driver σ) (a b : List GLCmd) :
    ∀ s : σ, replay drv (a ++ b) s =
      ((replay drv b (replay drv a s).1).1,
        (replay drv a s).2 ++ (replay drv b (replay drv a s).1).2) := by
  induction a with
  | nil => intro s; simp [replay]
  | cons c a ih => intro s; simp [replay, ih, List.append_assoc]

theorem Unchecked.trans {σ : Type} {drv : Driver σ} {c1 c2 : List GLCmd} {a b c : World σ}
    (h1 : Unchecked drv c1 a b) (h2 : Unchecked drv c2 b c) :
    Unchecked drv (c1 ++ c2) a c := by
  obtain ⟨hc1, hg1, he1, hh1⟩ := h1
  obtain ⟨hc2, hg2, he2, hh2⟩ := h2
  refine ⟨?_, ?_, ?_, ?_⟩
  · rw [hc2, hc1, List.map_append, List.append_assoc]
  · rw [hg2, hg1, replay_append]
  · rw [he2, he1, hg1, replay_append, List.append_assoc]
  · rw [hh2, hh1]

theorem driverCall_unchecked {σ : Type} (drv : Driver σ) (cmd : GLCmd) (w : World σ) :
    Unchecked drv [cmd] w (driverCall drv cmd w).2 :=
  ⟨rfl, rfl, by simp [driverCall, replay], rfl⟩

theorem Unchecked.call {σ : Type} {drv : Driver σ} {cmds : List GLCmd} {a b : World σ}
    (h : Unchecked drv cmds a b) (cmd : GLCmd) :
    Unchecked drv (cmds ++ [cmd]) a (driverCall drv cmd b).2 :=
  h.trans (driverCall_unchecked drv cmd b)

theorem Unchecked.cout {σ : Type} {drv : Driver σ} {cmds : List GLCmd} {a b : World σ}
    (h : Unchecked drv cmds a b) (text : String) :
    Unchecked drv cmds a (coutWrite b text) := h

/-- The driver calls of `CompileShader` are those of `compileCmds`, all bare. -/
theorem CompileShader_unchecked {σ : Type} (drv : Driver σ) (stackText : World σ → String)
    (type : Nat) (source : String) (w : World σ) :
    Unchecked drv (compileCmds drv type source w) w
      (CompileShader drv stackText type source w).2 := by
  by_cases hs : compileStatus drv type source w = GL_FALSE
  · simp only [compileCmds, if_pos hs]
    simp only [compileStatus, driverCall] at hs
    simp [Unchecked, CompileShader, hs, driverCall, coutWrite, replay, shaderObject,
      infoLogLength]
  · simp only [compileCmds, if_neg hs]
    simp only [compileStatus, driverCall] at hs
    simp [Unchecked, CompileShader, hs, driverCall, replay, shaderObject]

/-- What `CompileShader` writes: nothing when the status is not false; otherwise
the line naming the stage, then the text read from the buffer `message`. -/
theorem CompileShader_cout {σ : Type} (drv : Driver σ) (stackText : World σ → String)
    (k : StageKind) (source : String) (w : World σ) :
    (CompileShader drv stackText k.toGL source w).2.cout =
      if compileStatus drv k.toGL source w = GL_FALSE then
        w.cout ++ ("Failed to Compile " ++ k.label ++ "\n") ++
          (bufferText stackText (infoLogLength drv k.toGL source w)
              (infoLog drv k.toGL source w)
              (driverCall drv (GLCmd.glGetShaderInfoLog (shaderObject drv k.toGL w)
                (infoLogLength drv k.toGL source w))
                (driverCall drv (GLCmd.glGetShaderiv (shaderObject drv k.toGL w)
                  GL_INFO_LOG_LENGTH)
                  (driverCall drv (GLCmd.glGetShaderiv (shaderObject drv k.toGL w)
                    GL_COMPILE_STATUS)
                    (driverCall drv (GLCmd.glCompileShader (shaderObject drv k.toGL w))
                      (driverCall drv (GLCmd.glShaderSource (shaderObject drv k.toGL w) 1
                        (c_str source))
                        (driverCall drv (GLCmd.glCreateShader k.toGL) w).2).2).2).2).2).2 ++
            "\n")
      else w.cout := by
  by_cases hs : compileStatus drv k.toGL source w = GL_FALSE
  · rw [if_pos hs]
    cases k <;>
    · simp only [compileStatus, driverCall, StageKind.toGL, GL_VERTEX_SHADER,
        GL_FRAGMENT_SHADER] at hs
      simp [CompileShader, hs, shaderObject, infoLog, infoLogLength, driverCall, coutWrite,
        StageKind.toGL, StageKind.label, GL_VERTEX_SHADER, GL_FRAGMENT_SHADER,
        String.append_assoc]
  · rw [if_neg hs]
    cases k <;>
    · simp only [compileStatus, driverCall, StageKind.toGL, GL_VERTEX_SHADER,
        GL_FRAGMENT_SHADER] at hs
      simp [CompileShader, hs, driverCall, StageKind.toGL, GL_VERTEX_SHADER,
        GL_FRAGMENT_SHADER]

/-- Where the driver reports a log length of at least 1, the text read from the
buffer is the driver's log cut to the buffer. -/
theorem bufferText_of_pos {σ : Type} (stackText : World σ → String) (length : Int)
    (stored : String) (w : World σ) (hlen : 0 < length) :
    bufferText stackText length stored w =
      c_str (String.mk (stored.data.take (length.toNat - 1))) := by
  unfold bufferText
  rw [if_neg (by omega)]

/-- C3 (evaluation of the code): on a driver that reports the compile status
false and the log length 0, `CompileShader` returns 0 and deletes the object,
but the text it writes after the line naming the stage is not the driver's
(empty) info log: it is what the unwritten buffer `message` reads as. -/
theorem CompileShader_unwritten_message :
    compileStatus silentDriver GL_VERTEX_SHADER "" sampleWorld = GL_FALSE ∧
      infoLogLength silentDriver GL_VERTEX_SHADER "" sampleWorld = 0 ∧
      infoLog silentDriver GL_VERTEX_SHADER "" sampleWorld = "" ∧
      (CompileShader silentDriver sampleStack GL_VERTEX_SHADER "" sampleWorld).1 = 0 ∧
      (CompileShader silentDriver sampleStack GL_VERTEX_SHADER "" sampleWorld).2.cout =
        "Failed to Compile vertex shader\n@@stack bytes@@\n" ∧
      (CompileShader silentDriver sampleStack GL_VERTEX_SHADER "" sampleWorld).2.cout ≠
        "Failed to Compile vertex shader\n" ++
          (infoLog silentDriver GL_VERTEX_SHADER "" sampleWorld ++ "\n") := by
  decide

/-- Both outcomes of `CompileShader` occur on the sample driver, whose log
fits the length it reports: an empty source fails to compile, any other source
compiles. -/
theorem CompileShader_sample :
    (CompileShader sampleDriver sampleStack GL_FRAGMENT_SHADER "" sampleWorld).1 = 0 ∧
      (CompileShader sampleDriver sampleStack GL_FRAGMENT_SHADER "" sampleWorld).2.cout =
        "Failed to Compile fragment shader\nERROR: empty source\n" ∧
      (CompileShader sampleDriver sampleStack GL_VERTEX_SHADER "" sampleWorld).2.cout =
        "Failed to Compile vertex shader\nERROR: empty source\n" ∧
      GLEvent.call (GLCmd.glDeleteShader 1) ∈
        (CompileShader sampleDriver sampleStack GL_VERTEX_SHADER "" sampleWorld).2.calls ∧
      (CompileShader sampleDriver sampleStack GL_VERTEX_SHADER "void main() {}"
        sampleWorld).1 = 1 ∧
      (CompileShader sampleDriver sampleStack GL_VERTEX_SHADER "void main() {}"
        sampleWorld).2.cout = "" := by
  decide

/-- The driver calls of `CreateShader` are bare: the creation of the program,
the calls of the two `CompileShader` runs, then the six closing calls. -/
theorem CreateShader_unchecked {σ : Type} (drv : Driver σ) (stackText : World σ → String)
    (vertexShader fragmentShader : String) (w : World σ) :
    Unchecked drv
      ([GLCmd.glCreateProgram] ++
        compileCmds drv GL_VERTEX_SHADER vertexShader
          (driverCall drv GLCmd.glCreateProgram w).2 ++
        compileCmds drv GL_FRAGMENT_SHADER fragmentShader
          (CompileShader drv stackText GL_VERTEX_SHADER vertexShader
            (driverCall drv GLCmd.glCreateProgram w).2).2 ++
        [GLCmd.glAttachShader (driverCall drv GLCmd.glCreateProgram w).1.uint
          (CompileShader drv stackText GL_VERTEX_SHADER vertexShader
            (driverCall drv GLCmd.glCreateProgram w).2).1] ++
        [GLCmd.glAttachShader (driverCall drv GLCmd.glCreateProgram w).1.uint
          (CompileShader drv stackText GL_FRAGMENT_SHADER fragmentShader
            (CompileShader drv stackText GL_VERTEX_SHADER vertexShader
              (driverCall drv GLCmd.glCreateProgram w).2).2).1] ++
        [GLCmd.glLinkProgram (driverCall drv GLCmd.glCreateProgram w).1.uint] ++
        [GLCmd.glValidateProgram (driverCall drv GLCmd.glCreateProgram w).1.uint] ++
        [GLCmd.glDeleteShader
          (CompileShader drv stackText GL_VERTEX_SHADER vertexShader
            (driverCall drv GLCmd.glCreateProgram w).2).1] ++
        [GLCmd.glDeleteShader
          (CompileShader drv stackText GL_FRAGMENT_SHADER fragmentShader
            (CompileShader drv stackText GL_VERTEX_SHADER vertexShader
              (driverCall drv GLCmd.glCreateProgram w).2).2).1])
      w (CreateShader drv stackText vertexShader fragmentShader w).2 := by
  unfold CreateShader
  simp only []
  refine Unchecked.call ?_ _
  refine Unchecked.call ?_ _
  refine Unchecked.call ?_ _
  refine Unchecked.call ?_ _
  refine Unchecked.call ?_ _
  refine Unchecked.call ?_ _
  refine Unchecked.trans ?_ (CompileShader_unchecked drv stackText _ _ _)
  refine Unchecked.trans ?_ (CompileShader_unchecked drv stackText _ _ _)
  exact driverCall_unchecked drv _ w

/-- The sequence of C4 on the sample driver, for a vertex source that compiles
and an empty fragment source that does not. -/
theorem CreateShader_sample :
    CreateShader sampleDriver sampleStack "void main() {}" "" sampleWorld =
      (1,
        { gl := { next := 4, bad := [3] },
          errors := [0x0502, GL_INVALID_VALUE],
          calls :=
            [GLEvent.call GLCmd.glCreateProgram,
             GLEvent.call (GLCmd.glCreateShader GL_VERTEX_SHADER),
             GLEvent.call (GLCmd.glShaderSource 2 1 "void main() {}"),
             GLEvent.call (GLCmd.glCompileShader 2),
             GLEvent.call (GLCmd.glGetShaderiv 2 GL_COMPILE_STATUS),
             GLEvent.call (GLCmd.glCreateShader GL_FRAGMENT_SHADER),
             GLEvent.call (GLCmd.glShaderSource 3 1 ""),
             GLEvent.call (GLCmd.glCompileShader 3),
             GLEvent.call (GLCmd.glGetShaderiv 3 GL_COMPILE_STATUS),
             GLEvent.call (GLCmd.glGetShaderiv 3 GL_INFO_LOG_LENGTH),
             GLEvent.call (GLCmd.glGetShaderInfoLog 3 20),
             GLEvent.call (GLCmd.glDeleteShader 3),
             GLEvent.call (GLCmd.glAttachShader 1 2),
             GLEvent.call (GLCmd.glAttachShader 1 0),
             GLEvent.call (GLCmd.glLinkProgram 1),
             GLEvent.call (GLCmd.glValidateProgram 1),
             GLEvent.call (GLCmd.glDeleteShader 2),
             GLEvent.call (GLCmd.glDeleteShader 0)],
          cout := "Failed to Compile fragment shader\nERROR: empty source\n",
          halted := false }) := by
  decide

/-- C9 (as stated, refuted on the sample driver): with two empty sources the
calls of `CreateShader` and of `CompileShader` are not wrapped, no read of the
error queue is issued at all, the two `GL_INVALID_VALUE` codes raised by
attaching the handle 0 stay queued behind the stale code, and nothing halts. -/
theorem pipeline_not_under_harness :
    allCallsWrapped (CreateShader sampleDriver sampleStack "" "" sampleWorld).2.calls = false ∧
      GLEvent.glGetError ∉ (CreateShader sampleDriver sampleStack "" "" sampleWorld).2.calls ∧
      (CreateShader sampleDriver sampleStack "" "" sampleWorld).2.errors =
        [0x0502, GL_INVALID_VALUE, GL_INVALID_VALUE] ∧
      (CreateShader sampleDriver sampleStack "" "" sampleWorld).2.halted = false ∧
      allCallsWrapped
        (CompileShader sampleDriver sampleStack GL_VERTEX_SHADER "" sampleWorld).2.calls =
          false := by
  decide

/-- C9 (amended): no driver call of the shader pipeline runs under the harness.
In every execution of `CompileShader` and of `CreateShader` the record grows by
driver calls `cmds` none of which reads the error queue (for `CompileShader`
the calls of `compileCmds`), the error queue on return is the queue on entry
followed by all the codes these calls raised, in call order, and execution is
not halted. -/
theorem pipeline_never_checks {σ : Type} (drv : Driver σ) (stackText : World σ → String)
    (type : Nat) (source vertexShader fragmentShader : String) (w : World σ) :
    ((CompileShader drv stackText type source w).2.calls =
        w.calls ++ (compileCmds drv type source w).map GLEvent.call ∧
      GLEvent.glGetError ∉ (compileCmds drv type source w).map GLEvent.call ∧
      (CompileShader drv stackText type source w).2.errors =
        w.errors ++ (replay drv (compileCmds drv type source w) w.gl).2 ∧
      (CompileShader drv stackText type source w).2.halted = w.halted) ∧
    (∃ cmds : List GLCmd,
      cmds.take 1 = [GLCmd.glCreateProgram] ∧
      (CreateShader drv stackText vertexShader fragmentShader w).2.calls =
        w.calls ++ cmds.map GLEvent.call ∧
      GLEvent.glGetError ∉ cmds.map GLEvent.call ∧
      (CreateShader drv stackText vertexShader fragmentShader w).2.errors =
        w.errors ++ (replay drv cmds w.gl).2 ∧
      (CreateShader drv stackText vertexShader fragmentShader w).2.halted = w.halted) := by
  have hc := CompileShader_unchecked drv stackText type source w
  have hp := CreateShader_unchecked drv stackText vertexShader fragmentShader w
  exact ⟨⟨hc.1, by simp, hc.2.2.1, hc.2.2.2⟩,
    ⟨_, by simp, hp.1, by simp, hp.2.2.1, hp.2.2.2⟩⟩

end GLErrors
